import Mathlib

/-!
Verification of the StockBot frontend's portfolio accounting and
live-synchronization layer.

JavaScript numbers are modelled as rationals (ℚ); `Math.round` is modelled as
round-half-up (`⌊x + 1/2⌋`), which is JavaScript's rounding rule for
non-negative halves.  Record fields keep the snake_case names of the
TypeScript interfaces in `src/frontend/src/services/api.ts`, extended with the
fields the pages actually read and write (`holdings_value`, `daily_change`,
`daily_change_percent`, `portfolio_allocation`, ...).
-/

namespace StockBot

/-- A stock position, from `interface Holding` in `api.ts`.  `quantity` is
signed: negative means a short position.  The timestamp strings are kept as
opaque strings. -/
structure Holding where
  id : ℤ
  symbol : String
  quantity : ℚ
  average_cost : ℚ
  current_price : ℚ
  created_at : String
  updated_at : String
deriving DecidableEq

/-- The portfolio summary snapshot, from `interface PortfolioSummary` in
`api.ts`, extended with `holdings_value`, `daily_change` and
`daily_change_percent`, which the Dashboard page reads and the
`portfolio_update` WebSocket effect writes. -/
structure PortfolioSummary where
  cash_balance : ℚ
  total_value : ℚ
  total_invested : ℚ
  total_return : ℚ
  return_percentage : ℚ
  holdings_count : ℚ
  holdings_value : ℚ
  daily_change : ℚ
  daily_change_percent : ℚ
deriving DecidableEq

/-- An executed trade record, from `interface Trade` in `api.ts`. -/
structure Trade where
  id : ℤ
  symbol : String
  action : String
  quantity : ℚ
  price : ℚ
  total_amount : ℚ
  ai_reasoning : Option String
  executed_at : String
deriving DecidableEq

namespace PortfolioPage

/-- `Portfolio.tsx` line 228: `const totalReturn = (h.current_price - h.average_cost) * h.quantity`. -/
def totalReturn (h : Holding) : ℚ :=
  (h.current_price - h.average_cost) * h.quantity

/-- `Portfolio.tsx` line 229: `const initialInvestment = Math.abs(h.quantity) * h.average_cost`. -/
def initialInvestment (h : Holding) : ℚ :=
  |h.quantity| * h.average_cost

/-- `Portfolio.tsx` line 230:
`const returnPercent = initialInvestment > 0 ? (totalReturn / initialInvestment) * 100 : 0`. -/
def returnPercent (h : Holding) : ℚ :=
  if 0 < initialInvestment h then totalReturn h / initialInvestment h * 100 else 0

/-- `Portfolio.tsx` line 232: `const totalValue = Math.abs(h.quantity) * h.current_price`. -/
def totalValue (h : Holding) : ℚ :=
  |h.quantity| * h.current_price

end PortfolioPage

namespace DashboardPage

/-- `Dashboard.tsx` line 1237: `const totalReturn = (h.current_price - h.average_cost) * h.quantity`. -/
def totalReturn (h : Holding) : ℚ :=
  (h.current_price - h.average_cost) * h.quantity

/-- `Dashboard.tsx` line 1239: `const initialInvestment = Math.abs(h.quantity) * h.average_cost`. -/
def initialInvestment (h : Holding) : ℚ :=
  |h.quantity| * h.average_cost

/-- `Dashboard.tsx` line 1240:
`const returnPercent = initialInvestment > 0 ? (totalReturn / initialInvestment) * 100 : 0`. -/
def returnPercent (h : Holding) : ℚ :=
  if 0 < initialInvestment h then totalReturn h / initialInvestment h * 100 else 0

end DashboardPage

namespace TradingPage

/-- `Trading.tsx` line 32: `const marketValue = holding.quantity * holding.current_price`
(note: the signed quantity, not its absolute value). -/
def marketValue (h : Holding) : ℚ :=
  h.quantity * h.current_price

/-- `Trading.tsx` line 33: `const costBasis = holding.quantity * holding.average_cost`. -/
def costBasis (h : Holding) : ℚ :=
  h.quantity * h.average_cost

/-- `Trading.tsx` line 34: `const gainLoss = marketValue - costBasis`. -/
def gainLoss (h : Holding) : ℚ :=
  marketValue h - costBasis h

/-- `Trading.tsx` line 35:
`const returnPercent = costBasis > 0 ? ((marketValue - costBasis) / costBasis) * 100 : 0`. -/
def returnPercent (h : Holding) : ℚ :=
  if 0 < costBasis h then (marketValue h - costBasis h) / costBasis h * 100 else 0

end TradingPage

/-- C1: every display site computes the total return of a holding as
`(currentPrice - averageCost) * quantity` with the signed quantity and no
branch on its sign (the Trading page computes it as
`marketValue - costBasis`, which is algebraically the same expression); the
single formula is profitable for a long position when the price rose and for
a short position when the price fell. -/
theorem C1_total_return_signed_formula (h : Holding) :
    PortfolioPage.totalReturn h = (h.current_price - h.average_cost) * h.quantity ∧
    DashboardPage.totalReturn h = (h.current_price - h.average_cost) * h.quantity ∧
    TradingPage.gainLoss h = (h.current_price - h.average_cost) * h.quantity ∧
    (0 < h.quantity → h.average_cost < h.current_price → 0 < PortfolioPage.totalReturn h) ∧
    (h.quantity < 0 → h.current_price < h.average_cost → 0 < PortfolioPage.totalReturn h) := by
  refine ⟨rfl, rfl, ?_, ?_, ?_⟩
  · simp only [TradingPage.gainLoss, TradingPage.marketValue, TradingPage.costBasis]
    ring
  · intro hq hp
    exact mul_pos (sub_pos.mpr hp) hq
  · intro hq hp
    have h1 : h.current_price - h.average_cost < 0 := sub_neg.mpr hp
    exact mul_pos_of_neg_of_neg h1 hq

/-- Witness for C1: the signed-quantity hypotheses are discharged at a
concrete long holding (10 shares, cost 150, price 160) and a concrete short
holding (-5 shares, cost 200, price 190); both show a positive return. -/
theorem C1_total_return_signed_formula_witness :
    0 < PortfolioPage.totalReturn ⟨1, "AAPL", 10, 150, 160, "", ""⟩ ∧
    0 < PortfolioPage.totalReturn ⟨2, "TSLA", -5, 200, 190, "", ""⟩ :=
  ⟨(C1_total_return_signed_formula ⟨1, "AAPL", 10, 150, 160, "", ""⟩).2.2.2.1
      (by norm_num) (by norm_num),
   (C1_total_return_signed_formula ⟨2, "TSLA", -5, 200, 190, "", ""⟩).2.2.2.2
      (by norm_num) (by norm_num)⟩

/-- C2: on every display site, whenever the cost basis
`|quantity| * averageCost` is zero (in particular when `averageCost = 0` or
`quantity = 0`), the guarded ternary short-circuits and the displayed return
percentage is exactly 0 — the division never executes, so no NaN or Infinity
can surface. -/
theorem C2_zero_cost_basis_return_percent (h : Holding)
    (hz : |h.quantity| * h.average_cost = 0) :
    PortfolioPage.returnPercent h = 0 ∧
    DashboardPage.returnPercent h = 0 ∧
    TradingPage.returnPercent h = 0 := by
  have hqa : h.quantity * h.average_cost = 0 := by
    rcases mul_eq_zero.mp hz with hq | ha
    · rw [abs_eq_zero.mp hq, zero_mul]
    · rw [ha, mul_zero]
  refine ⟨?_, ?_, ?_⟩
  · rw [PortfolioPage.returnPercent, PortfolioPage.initialInvestment, if_neg]
    rw [hz]
    exact lt_irrefl 0
  · rw [DashboardPage.returnPercent, DashboardPage.initialInvestment, if_neg]
    rw [hz]
    exact lt_irrefl 0
  · rw [TradingPage.returnPercent, TradingPage.costBasis, if_neg]
    rw [hqa]
    exact lt_irrefl 0

/-- Witness for C2: a holding with `averageCost = 0` (4 shares, price 100)
has zero cost basis, and all three display sites show a 0% return. -/
theorem C2_zero_cost_basis_return_percent_witness :
    |(4 : ℚ)| * 0 = 0 ∧
    PortfolioPage.returnPercent ⟨3, "NEW", 4, 0, 100, "", ""⟩ = 0 ∧
    DashboardPage.returnPercent ⟨3, "NEW", 4, 0, 100, "", ""⟩ = 0 ∧
    TradingPage.returnPercent ⟨3, "NEW", 4, 0, 100, "", ""⟩ = 0 := by
  have hmain := C2_zero_cost_basis_return_percent ⟨3, "NEW", 4, 0, 100, "", ""⟩ (by norm_num)
  exact ⟨by norm_num, hmain.1, hmain.2.1, hmain.2.2⟩

/-- Counterexample for C3 as stated: for the short holding TSLA
(-5 shares at current price 190), the Trading page's displayed market value
is `quantity * currentPrice = -950`, not `|quantity| * currentPrice = 950`. -/
theorem C3_market_value_counterexample :
    TradingPage.marketValue ⟨2, "TSLA", -5, 200, 190, "", ""⟩ = -950 ∧
    ¬ TradingPage.marketValue ⟨2, "TSLA", -5, 200, 190, "", ""⟩
        = |(-5 : ℚ)| * 190 := by
  constructor
  · norm_num [TradingPage.marketValue]
  · norm_num [TradingPage.marketValue]

/-- C3 (amended): the Portfolio page's Total Value column equals
`|quantity| * currentPrice` for every position, long or short; the Trading
page's HoldingRow instead displays the signed product
`quantity * currentPrice`, which agrees with `|quantity| * currentPrice`
only when the quantity is non-negative (and is negative for shorts). -/
theorem C3_market_value_abs (h : Holding) :
    PortfolioPage.totalValue h = |h.quantity| * h.current_price ∧
    TradingPage.marketValue h = h.quantity * h.current_price ∧
    (0 ≤ h.quantity → TradingPage.marketValue h = |h.quantity| * h.current_price) := by
  refine ⟨rfl, rfl, ?_⟩
  intro hq
  rw [TradingPage.marketValue, abs_of_nonneg hq]

/-- Witness for C3 (amended): at a concrete long holding (10 shares at
price 160) the non-negativity hypothesis is discharged and the Trading page's
market value coincides with the absolute-value formula. -/
theorem C3_market_value_abs_witness :
    TradingPage.marketValue ⟨1, "AAPL", 10, 150, 160, "", ""⟩
      = |(10 : ℚ)| * 160 :=
  (C3_market_value_abs ⟨1, "AAPL", 10, 150, 160, "", ""⟩).2.2 (by norm_num)

/-- Bot status, from `interface BotStatus` in `api.ts`, extended with the
`trades_bought_today` / `trades_sold_today` fields the Dashboard reads. -/
structure BotStatus where
  is_active : Bool
  is_trading_hours : Bool
  trades_today : ℚ
  trades_bought_today : ℚ
  trades_sold_today : ℚ
  max_daily_trades : ℚ
  cash_available : ℚ
  portfolio_value : ℚ
  last_trade_time : Option String
deriving DecidableEq

/-- Trading statistics, from `interface TradingStats` in `api.ts`. -/
structure TradingStats where
  total_trades : ℚ
  winning_trades : ℚ
  losing_trades : ℚ
  win_rate : ℚ
  total_profit_loss : ℚ
  average_trade_return : ℚ
  best_trade : Option ℚ
  worst_trade : Option ℚ
deriving DecidableEq

/-- The two values of `portfolio_allocation_type` used by the pages. -/
inductive AllocationType where
  | PERCENTAGE
  | FIXED_AMOUNT
deriving DecidableEq

/-- Bot configuration, from `interface BotConfig` in `api.ts`, extended with
the `portfolio_allocation`, `portfolio_allocation_type` and
`portfolio_allocation_amount` fields the Dashboard and Configuration pages
read and write. -/
structure BotConfig where
  id : ℤ
  max_daily_trades : ℚ
  max_position_size : ℚ
  risk_tolerance : String
  trading_hours_start : String
  trading_hours_end : String
  is_active : Bool
  stop_loss_percentage : ℚ
  take_profit_percentage : ℚ
  min_cash_reserve : ℚ
  portfolio_allocation : ℚ
  portfolio_allocation_type : AllocationType
  portfolio_allocation_amount : ℚ
deriving DecidableEq

/-- Payload of a `portfolio_update` WebSocket message: the only two fields
the pages ever read from it (`lastMessage.payload.cash_balance` and
`lastMessage.payload.total_value`).  It carries no timestamp. -/
structure PortfolioUpdatePayload where
  cash_balance : ℚ
  total_value : ℚ
deriving DecidableEq

/-- A parsed WebSocket message.  The pages dispatch on
`lastMessage.type === "portfolio_update"`; every other parsed message is
stored in `lastMessage` but triggers no state change in the pages. -/
inductive WsMessage where
  | portfolioUpdate (payload : PortfolioUpdatePayload)
  | otherMessage
deriving DecidableEq

/-- The shared body of the `portfolio_update` effect in `Portfolio.tsx`
lines 45-54 and `Dashboard.tsx` lines 845-854:
`setPortfolioSummary(prev => if (!prev) return prev; return { ...prev,
cash_balance: payload.cash_balance, total_value: payload.total_value,
holdings_value: payload.total_value - payload.cash_balance })`. -/
def applyPortfolioUpdate (payload : PortfolioUpdatePayload)
    (prev : Option PortfolioSummary) : Option PortfolioSummary :=
  match prev with
  | none => none
  | some p =>
      some { p with
        cash_balance := payload.cash_balance,
        total_value := payload.total_value,
        holdings_value := payload.total_value - payload.cash_balance }

/-- React state of the Portfolio page (`Portfolio.tsx` lines 31-37; the
`lastUpdated` Date is omitted as wall-clock time). -/
structure PortfolioPageState where
  portfolioSummary : Option PortfolioSummary
  holdings : List Holding
  trades : List Trade
  loading : Bool
  error : Option String
  selectedChartSymbol : String
deriving DecidableEq

/-- React state of the Dashboard page (`Dashboard.tsx` lines 829-837; the
`lastUpdated` Date is omitted as wall-clock time). -/
structure DashboardPageState where
  portfolioSummary : Option PortfolioSummary
  botStatus : Option BotStatus
  tradingStats : Option TradingStats
  botConfig : Option BotConfig
  holdings : List Holding
  loading : Bool
  toggling : Bool
  error : Option String
deriving DecidableEq

/-- The WebSocket effect of `Portfolio.tsx` lines 42-58: on a
`portfolio_update` message it merges the payload into `portfolioSummary`;
any other message type leaves the page state unchanged.  Only
`setPortfolioSummary` is called, so `holdings`, `trades`, `error`,
`loading` and `selectedChartSymbol` are untouched. -/
def PortfolioPage.portfolioUpdateEffect (msg : WsMessage)
    (s : PortfolioPageState) : PortfolioPageState :=
  match msg with
  | .portfolioUpdate payload =>
      { s with portfolioSummary := applyPortfolioUpdate payload s.portfolioSummary }
  | .otherMessage => s

/-- The WebSocket effect of `Dashboard.tsx` lines 842-859, identical in
logic to the Portfolio page's effect. -/
def DashboardPage.portfolioUpdateEffect (msg : WsMessage)
    (s : DashboardPageState) : DashboardPageState :=
  match msg with
  | .portfolioUpdate payload =>
      { s with portfolioSummary := applyPortfolioUpdate payload s.portfolioSummary }
  | .otherMessage => s

/-- `ws.onmessage` in `WebSocketContext.tsx` lines 44-54: the literal
`"pong"` heartbeat reply is filtered out, then the payload is passed to
`JSON.parse` inside a try/catch — on parse failure only `console.error`
runs and `lastMessage` is not set.  `JSON.parse` is external library code,
modelled as an abstract function `parse : String → Option WsMessage`
(`none` = the payload is not valid JSON). -/
def WebSocketContext.onmessage (parse : String → Option WsMessage)
    (data : String) (lastMessage : Option WsMessage) : Option WsMessage :=
  if data = "pong" then lastMessage
  else
    match parse data with
    | some m => some m
    | none => lastMessage

/-- Delivery of one raw WebSocket frame to the Portfolio page: when
`onmessage` stores a new `lastMessage`, the page's effect (which has
`[lastMessage]` as its dependency list) runs on it; when `setLastMessage`
is not called (heartbeat or parse failure), no re-render occurs and the
page state is untouched. -/
def wsDeliver (parse : String → Option WsMessage) (data : String)
    (lastMessage : Option WsMessage) (s : PortfolioPageState) :
    Option WsMessage × PortfolioPageState :=
  if data = "pong" then (lastMessage, s)
  else
    match parse data with
    | some m => (some m, PortfolioPage.portfolioUpdateEffect m s)
    | none => (lastMessage, s)

/-- A portfolio summary as last delivered by a REST poll
(cash 100, total 200, holdings value 100). -/
def examplePollSummary : PortfolioSummary := ⟨100, 200, 20, 5, 2, 3, 100, 1, 1⟩

/-- Portfolio page state right after that poll completed. -/
def examplePortfolioState : PortfolioPageState :=
  ⟨some examplePollSummary, [], [], false, none, ""⟩

/-- Portfolio page state before any successful fetch (no snapshot yet). -/
def emptyPortfolioState : PortfolioPageState := ⟨none, [], [], true, none, ""⟩

/-- Dashboard page state right after a poll delivered `examplePollSummary`. -/
def exampleDashboardState : DashboardPageState :=
  ⟨some examplePollSummary, none, none, none, [], false, false, none⟩

/-- Dashboard page state before any successful fetch. -/
def emptyDashboardState : DashboardPageState :=
  ⟨none, none, none, none, [], true, false, none⟩

/-- A push delta generated before that poll (stale): cash 5, total 10. -/
def exampleStaleDelta : PortfolioUpdatePayload := ⟨5, 10⟩

/-- When no snapshot has been received yet, the Portfolio page's
`portfolio_update` effect is a no-op (`if (!prev) return prev`). -/
theorem portfolioEffect_none (payload : PortfolioUpdatePayload)
    (s : PortfolioPageState) (h : s.portfolioSummary = none) :
    PortfolioPage.portfolioUpdateEffect (.portfolioUpdate payload) s = s := by
  obtain ⟨ps, hs, tr, lo, er, sel⟩ := s
  obtain rfl : ps = none := h
  rfl

/-- On a non-null snapshot, the Portfolio page's effect produces the
field-level merge of the delta. -/
theorem portfolioEffect_some (payload : PortfolioUpdatePayload)
    (s : PortfolioPageState) (p : PortfolioSummary)
    (h : s.portfolioSummary = some p) :
    (PortfolioPage.portfolioUpdateEffect (.portfolioUpdate payload) s).portfolioSummary
      = some { p with
          cash_balance := payload.cash_balance,
          total_value := payload.total_value,
          holdings_value := payload.total_value - payload.cash_balance } := by
  show applyPortfolioUpdate payload s.portfolioSummary = _
  rw [h]
  rfl

/-- When no snapshot has been received yet, the Dashboard page's
`portfolio_update` effect is a no-op. -/
theorem dashboardEffect_none (payload : PortfolioUpdatePayload)
    (d : DashboardPageState) (h : d.portfolioSummary = none) :
    DashboardPage.portfolioUpdateEffect (.portfolioUpdate payload) d = d := by
  obtain ⟨ps, bs, ts, bc, hs, lo, tg, er⟩ := d
  obtain rfl : ps = none := h
  rfl

/-- On a non-null snapshot, the Dashboard page's effect produces the
field-level merge of the delta. -/
theorem dashboardEffect_some (payload : PortfolioUpdatePayload)
    (d : DashboardPageState) (p : PortfolioSummary)
    (h : d.portfolioSummary = some p) :
    (DashboardPage.portfolioUpdateEffect (.portfolioUpdate payload) d).portfolioSummary
      = some { p with
          cash_balance := payload.cash_balance,
          total_value := payload.total_value,
          holdings_value := payload.total_value - payload.cash_balance } := by
  show applyPortfolioUpdate payload d.portfolioSummary = _
  rw [h]
  rfl

/-- Counterexample for C4 as stated: the `portfolio_update` effect performs
no timestamp comparison whatsoever (the payload carries none and the pages
record no poll time), so a push delta generated before the last poll and
delivered after it is not a no-op: applied to the post-poll state
(cash 100, total 200) the stale delta (cash 5, total 10) changes the
snapshot instead of leaving it byte-for-byte unchanged. -/
theorem C4_stale_delta_counterexample :
    PortfolioPage.portfolioUpdateEffect (.portfolioUpdate exampleStaleDelta)
        examplePortfolioState ≠ examplePortfolioState := by
  decide

/-- C4 (amended): the pages discard no push delta by logical timestamp —
neither the delta nor the page state carries one.  A `portfolio_update`
delta is a no-op exactly when no snapshot has been received yet
(`prev = null`); whenever a snapshot exists, the delta overwrites
`cash_balance`, `total_value` and `holdings_value` unconditionally, even
when it is older than the last poll (last-push-wins, not
last-writer-wins). -/
theorem C4_push_delta_applied_unconditionally (payload : PortfolioUpdatePayload)
    (s : PortfolioPageState) (d : DashboardPageState) :
    (s.portfolioSummary = none →
      PortfolioPage.portfolioUpdateEffect (.portfolioUpdate payload) s = s) ∧
    (∀ p, s.portfolioSummary = some p →
      (PortfolioPage.portfolioUpdateEffect (.portfolioUpdate payload) s).portfolioSummary
        = some { p with
            cash_balance := payload.cash_balance,
            total_value := payload.total_value,
            holdings_value := payload.total_value - payload.cash_balance }) ∧
    (d.portfolioSummary = none →
      DashboardPage.portfolioUpdateEffect (.portfolioUpdate payload) d = d) ∧
    (∀ p, d.portfolioSummary = some p →
      (DashboardPage.portfolioUpdateEffect (.portfolioUpdate payload) d).portfolioSummary
        = some { p with
            cash_balance := payload.cash_balance,
            total_value := payload.total_value,
            holdings_value := payload.total_value - payload.cash_balance }) :=
  ⟨portfolioEffect_none payload s,
   fun p hp => portfolioEffect_some payload s p hp,
   dashboardEffect_none payload d,
   fun p hp => dashboardEffect_some payload d p hp⟩

/-- Witness for C4 (amended): the hypotheses are discharged at the concrete
empty states (no snapshot: the stale delta is a no-op) and at the concrete
post-poll states (snapshot present: the stale delta overwrites the three
fields). -/
theorem C4_push_delta_applied_unconditionally_witness :
    PortfolioPage.portfolioUpdateEffect (.portfolioUpdate exampleStaleDelta)
        emptyPortfolioState = emptyPortfolioState ∧
    (PortfolioPage.portfolioUpdateEffect (.portfolioUpdate exampleStaleDelta)
        examplePortfolioState).portfolioSummary
      = some { examplePollSummary with
          cash_balance := exampleStaleDelta.cash_balance,
          total_value := exampleStaleDelta.total_value,
          holdings_value :=
            exampleStaleDelta.total_value - exampleStaleDelta.cash_balance } ∧
    DashboardPage.portfolioUpdateEffect (.portfolioUpdate exampleStaleDelta)
        emptyDashboardState = emptyDashboardState ∧
    (DashboardPage.portfolioUpdateEffect (.portfolioUpdate exampleStaleDelta)
        exampleDashboardState).portfolioSummary
      = some { examplePollSummary with
          cash_balance := exampleStaleDelta.cash_balance,
          total_value := exampleStaleDelta.total_value,
          holdings_value :=
            exampleStaleDelta.total_value - exampleStaleDelta.cash_balance } :=
  ⟨(C4_push_delta_applied_unconditionally exampleStaleDelta emptyPortfolioState
      emptyDashboardState).1 rfl,
   (C4_push_delta_applied_unconditionally exampleStaleDelta examplePortfolioState
      exampleDashboardState).2.1 examplePollSummary rfl,
   (C4_push_delta_applied_unconditionally exampleStaleDelta emptyPortfolioState
      emptyDashboardState).2.2.1 rfl,
   (C4_push_delta_applied_unconditionally exampleStaleDelta examplePortfolioState
      exampleDashboardState).2.2.2 examplePollSummary rfl⟩

/-- Counterexample for C5 as stated: `holdings_value` is absent from the
push delta (the payload carries only `cash_balance` and `total_value`),
yet the merge overwrites it — applying the delta (cash 5, total 10) to the
post-poll snapshot changes `holdings_value` from 100 to 5. -/
theorem C5_absent_field_overwritten_counterexample :
    Option.map PortfolioSummary.holdings_value
        (PortfolioPage.portfolioUpdateEffect (.portfolioUpdate exampleStaleDelta)
          examplePortfolioState).portfolioSummary = some 5 ∧
    Option.map PortfolioSummary.holdings_value
        examplePortfolioState.portfolioSummary = some 100 := by
  constructor
  · show some (exampleStaleDelta.total_value - exampleStaleDelta.cash_balance) = some 5
    norm_num [exampleStaleDelta]
  · rfl

/-- C5 (amended): applying a `portfolio_update` delta modifies exactly
three summary fields — `cash_balance` and `total_value` from the delta,
plus `holdings_value`, which is absent from the delta but recomputed as
`total_value - cash_balance`.  All remaining summary fields
(`total_invested`, `total_return`, `return_percentage`, `holdings_count`,
`daily_change`, `daily_change_percent`) are untouched, the Holdings list
(and hence its symbol set) and the trades list are untouched, and no new
symbol is introduced. -/
theorem C5_delta_field_level_merge (payload : PortfolioUpdatePayload)
    (s : PortfolioPageState) (d : DashboardPageState) :
    (∀ p, s.portfolioSummary = some p →
      ∃ q, (PortfolioPage.portfolioUpdateEffect (.portfolioUpdate payload) s).portfolioSummary
            = some q ∧
        q.cash_balance = payload.cash_balance ∧
        q.total_value = payload.total_value ∧
        q.holdings_value = payload.total_value - payload.cash_balance ∧
        q.total_invested = p.total_invested ∧
        q.total_return = p.total_return ∧
        q.return_percentage = p.return_percentage ∧
        q.holdings_count = p.holdings_count ∧
        q.daily_change = p.daily_change ∧
        q.daily_change_percent = p.daily_change_percent) ∧
    (PortfolioPage.portfolioUpdateEffect (.portfolioUpdate payload) s).holdings
      = s.holdings ∧
    (PortfolioPage.portfolioUpdateEffect (.portfolioUpdate payload) s).trades
      = s.trades ∧
    (∀ sym,
      sym ∈ ((PortfolioPage.portfolioUpdateEffect (.portfolioUpdate payload) s).holdings.map
          Holding.symbol) →
      sym ∈ (s.holdings.map Holding.symbol)) ∧
    (∀ p, d.portfolioSummary = some p →
      ∃ q, (DashboardPage.portfolioUpdateEffect (.portfolioUpdate payload) d).portfolioSummary
            = some q ∧
        q.cash_balance = payload.cash_balance ∧
        q.total_value = payload.total_value ∧
        q.holdings_value = payload.total_value - payload.cash_balance ∧
        q.total_invested = p.total_invested ∧
        q.total_return = p.total_return ∧
        q.return_percentage = p.return_percentage ∧
        q.holdings_count = p.holdings_count ∧
        q.daily_change = p.daily_change ∧
        q.daily_change_percent = p.daily_change_percent) ∧
    (DashboardPage.portfolioUpdateEffect (.portfolioUpdate payload) d).holdings
      = d.holdings := by
  refine ⟨?_, rfl, rfl, ?_, ?_, rfl⟩
  · intro p hp
    exact ⟨_, portfolioEffect_some payload s p hp,
      rfl, rfl, rfl, rfl, rfl, rfl, rfl, rfl, rfl⟩
  · intro sym hsym
    exact hsym
  · intro p hp
    exact ⟨_, dashboardEffect_some payload d p hp,
      rfl, rfl, rfl, rfl, rfl, rfl, rfl, rfl, rfl⟩

/-- Witness for C5 (amended): at the concrete post-poll states, the merged
snapshot keeps `total_invested` (20) and the other untouched fields of
`examplePollSummary` while taking the delta's totals. -/
theorem C5_delta_field_level_merge_witness :
    (∃ q, (PortfolioPage.portfolioUpdateEffect (.portfolioUpdate exampleStaleDelta)
          examplePortfolioState).portfolioSummary = some q ∧
      q.cash_balance = exampleStaleDelta.cash_balance ∧
      q.total_value = exampleStaleDelta.total_value ∧
      q.holdings_value = exampleStaleDelta.total_value - exampleStaleDelta.cash_balance ∧
      q.total_invested = examplePollSummary.total_invested ∧
      q.total_return = examplePollSummary.total_return ∧
      q.return_percentage = examplePollSummary.return_percentage ∧
      q.holdings_count = examplePollSummary.holdings_count ∧
      q.daily_change = examplePollSummary.daily_change ∧
      q.daily_change_percent = examplePollSummary.daily_change_percent) ∧
    (∃ q, (DashboardPage.portfolioUpdateEffect (.portfolioUpdate exampleStaleDelta)
          exampleDashboardState).portfolioSummary = some q ∧
      q.cash_balance = exampleStaleDelta.cash_balance ∧
      q.total_value = exampleStaleDelta.total_value ∧
      q.holdings_value = exampleStaleDelta.total_value - exampleStaleDelta.cash_balance ∧
      q.total_invested = examplePollSummary.total_invested ∧
      q.total_return = examplePollSummary.total_return ∧
      q.return_percentage = examplePollSummary.return_percentage ∧
      q.holdings_count = examplePollSummary.holdings_count ∧
      q.daily_change = examplePollSummary.daily_change ∧
      q.daily_change_percent = examplePollSummary.daily_change_percent) :=
  ⟨(C5_delta_field_level_merge exampleStaleDelta examplePortfolioState
      exampleDashboardState).1 examplePollSummary rfl,
   (C5_delta_field_level_merge exampleStaleDelta examplePortfolioState
      exampleDashboardState).2.2.2.2.1 examplePollSummary rfl⟩

/-- C10: applying a `portfolio_update` delta keeps the aggregate identity
`holdings_value = total_value - cash_balance` of the merged snapshot (the
effect recomputes `holdings_value` from the delta's totals rather than
leaving the polled value stale), and when no snapshot has been received yet
the delta is a no-op, on both the Portfolio and the Dashboard page. -/
theorem C10_delta_preserves_aggregate_identity (payload : PortfolioUpdatePayload)
    (s : PortfolioPageState) (d : DashboardPageState) :
    (∀ p, s.portfolioSummary = some p →
      ∃ q, (PortfolioPage.portfolioUpdateEffect (.portfolioUpdate payload) s).portfolioSummary
            = some q ∧
        q.holdings_value = q.total_value - q.cash_balance) ∧
    (s.portfolioSummary = none →
      PortfolioPage.portfolioUpdateEffect (.portfolioUpdate payload) s = s) ∧
    (∀ p, d.portfolioSummary = some p →
      ∃ q, (DashboardPage.portfolioUpdateEffect (.portfolioUpdate payload) d).portfolioSummary
            = some q ∧
        q.holdings_value = q.total_value - q.cash_balance) ∧
    (d.portfolioSummary = none →
      DashboardPage.portfolioUpdateEffect (.portfolioUpdate payload) d = d) :=
  ⟨fun p hp => ⟨_, portfolioEffect_some payload s p hp, rfl⟩,
   portfolioEffect_none payload s,
   fun p hp => ⟨_, dashboardEffect_some payload d p hp, rfl⟩,
   dashboardEffect_none payload d⟩

/-- Witness for C10: at the concrete post-poll states the merged snapshot
satisfies the identity, and at the concrete empty states the delta is a
no-op. -/
theorem C10_delta_preserves_aggregate_identity_witness :
    (∃ q, (PortfolioPage.portfolioUpdateEffect (.portfolioUpdate exampleStaleDelta)
          examplePortfolioState).portfolioSummary = some q ∧
      q.holdings_value = q.total_value - q.cash_balance) ∧
    PortfolioPage.portfolioUpdateEffect (.portfolioUpdate exampleStaleDelta)
        emptyPortfolioState = emptyPortfolioState ∧
    (∃ q, (DashboardPage.portfolioUpdateEffect (.portfolioUpdate exampleStaleDelta)
          exampleDashboardState).portfolioSummary = some q ∧
      q.holdings_value = q.total_value - q.cash_balance) ∧
    DashboardPage.portfolioUpdateEffect (.portfolioUpdate exampleStaleDelta)
        emptyDashboardState = emptyDashboardState :=
  ⟨(C10_delta_preserves_aggregate_identity exampleStaleDelta examplePortfolioState
      exampleDashboardState).1 examplePollSummary rfl,
   (C10_delta_preserves_aggregate_identity exampleStaleDelta emptyPortfolioState
      emptyDashboardState).2.1 rfl,
   (C10_delta_preserves_aggregate_identity exampleStaleDelta examplePortfolioState
      exampleDashboardState).2.2.1 examplePollSummary rfl,
   (C10_delta_preserves_aggregate_identity exampleStaleDelta emptyPortfolioState
      emptyDashboardState).2.2.2 rfl⟩

/-- A tiny concrete model of `JSON.parse` used only to exercise the handler
at concrete inputs: it recognizes exactly one frame and fails (returns
`none`) on everything else, including `"pong"`. -/
def exampleParse : String → Option WsMessage := fun data =>
  if data = "update" then some (.portfolioUpdate exampleStaleDelta) else none

/-- C9: an incoming WebSocket frame whose payload is not valid JSON
(`parse data = none`, which includes the literal `"pong"` heartbeat reply,
filtered even before parsing) never calls `setLastMessage`: `lastMessage`
is unchanged, no effect re-runs, and the Portfolio page state is left
exactly as it was. -/
theorem C9_non_json_payload_ignored (parse : String → Option WsMessage)
    (data : String) (lastMessage : Option WsMessage) (s : PortfolioPageState)
    (hp : parse data = none) :
    WebSocketContext.onmessage parse data lastMessage = lastMessage ∧
    wsDeliver parse data lastMessage s = (lastMessage, s) := by
  by_cases hd : data = "pong"
  · constructor
    · simp [WebSocketContext.onmessage, hd]
    · simp [wsDeliver, hd]
  · constructor
    · simp [WebSocketContext.onmessage, hd, hp]
    · simp [wsDeliver, hd, hp]

/-- Witness for C9: under the concrete parse model, both the raw `"pong"`
heartbeat and a garbage frame `"hello"` leave `lastMessage` and the page
state untouched. -/
theorem C9_non_json_payload_ignored_witness :
    exampleParse "pong" = none ∧
    exampleParse "hello" = none ∧
    WebSocketContext.onmessage exampleParse "pong" (some .otherMessage)
      = some .otherMessage ∧
    wsDeliver exampleParse "hello" (some .otherMessage) examplePortfolioState
      = (some .otherMessage, examplePortfolioState) :=
  ⟨rfl, rfl,
   (C9_non_json_payload_ignored exampleParse "pong" (some .otherMessage)
      examplePortfolioState rfl).1,
   (C9_non_json_payload_ignored exampleParse "hello" (some .otherMessage)
      examplePortfolioState rfl).2⟩

/-- `fetchPortfolioData` in `Portfolio.tsx` lines 60-85.  The poll is a
`Promise.all` over the summary, holdings and trades endpoints, modelled as
`some` of the triple when all three succeed and `none` when any rejects.
On success all three states and `selectedChartSymbol` (when still empty and
holdings exist) are replaced and the error is cleared; on failure only
`setError` runs — the data states are untouched.  In both cases `loading`
ends up `false` (`finally`). -/
def PortfolioPage.fetchPortfolioData
    (result : Option (PortfolioSummary × List Holding × List Trade))
    (s : PortfolioPageState) : PortfolioPageState :=
  match result with
  | some (summary, holdingsData, tradesData) =>
      { s with
        loading := false,
        error := none,
        portfolioSummary := some summary,
        holdings := holdingsData,
        trades := tradesData,
        selectedChartSymbol :=
          match holdingsData with
          | [] => s.selectedChartSymbol
          | h0 :: _ =>
              if s.selectedChartSymbol = "" then h0.symbol
              else s.selectedChartSymbol }
  | none =>
      { s with loading := false, error := some "Failed to load portfolio data" }

/-- Results of one Dashboard poll (`Dashboard.tsx` lines 868-875): each
endpoint is individually guarded — `.catch(() => null)` for the first four
and `.catch(() => [])` for holdings — so the `Promise.all` itself never
rejects.  `none` records that the endpoint failed. -/
structure DashboardFetchResults where
  portfolio : Option PortfolioSummary
  bot : Option BotStatus
  stats : Option TradingStats
  config : Option BotConfig
  holdingsData : Option (List Holding)
deriving DecidableEq

/-- `fetchDashboardData` in `Dashboard.tsx` lines 861-894: every endpoint
result — `null` when that endpoint failed — is written into the
corresponding state unconditionally, the error is cleared
(`setError(null)`), and when `showLoader` is set `loading` ends `false`. -/
def DashboardPage.fetchDashboardData (r : DashboardFetchResults)
    (showLoader : Bool) (s : DashboardPageState) : DashboardPageState :=
  { s with
    loading := if showLoader then false else s.loading,
    error := none,
    portfolioSummary := r.portfolio,
    botStatus := r.bot,
    tradingStats := r.stats,
    botConfig := r.config,
    holdings := r.holdingsData.getD [] }

/-- Counterexample for C6 as stated: on the Dashboard page, a poll whose
endpoints all fail after a successful fetch does clear the displayed data —
the previously shown summary is replaced by `null` — and no error state is
surfaced (`error` stays `null`), contradicting the claim for the cited
`fetchDashboardData`. -/
theorem C6_dashboard_poll_failure_clears_counterexample :
    (DashboardPage.fetchDashboardData ⟨none, none, none, none, none⟩ false
        exampleDashboardState).portfolioSummary = none ∧
    exampleDashboardState.portfolioSummary = some examplePollSummary ∧
    (DashboardPage.fetchDashboardData ⟨none, none, none, none, none⟩ false
        exampleDashboardState).error = none :=
  ⟨rfl, rfl, rfl⟩

/-- C6 (amended): on the Portfolio page a failed poll preserves the
previously displayed summary, holdings and trades and surfaces only the
error message.  On the Dashboard page, however, each endpoint's result
(null when that endpoint failed) unconditionally replaces the corresponding
displayed state, so a failed endpoint clears already-displayed data there,
and the error state is reset to null rather than surfaced. -/
theorem C6_poll_failure_preserves_portfolio_page (s : PortfolioPageState)
    (r : DashboardFetchResults) (showLoader : Bool) (d : DashboardPageState) :
    (PortfolioPage.fetchPortfolioData none s).portfolioSummary
      = s.portfolioSummary ∧
    (PortfolioPage.fetchPortfolioData none s).holdings = s.holdings ∧
    (PortfolioPage.fetchPortfolioData none s).trades = s.trades ∧
    (PortfolioPage.fetchPortfolioData none s).error
      = some "Failed to load portfolio data" ∧
    (DashboardPage.fetchDashboardData r showLoader d).portfolioSummary
      = r.portfolio ∧
    (DashboardPage.fetchDashboardData r showLoader d).botStatus = r.bot ∧
    (DashboardPage.fetchDashboardData r showLoader d).tradingStats = r.stats ∧
    (DashboardPage.fetchDashboardData r showLoader d).error = none :=
  ⟨rfl, rfl, rfl, rfl, rfl, rfl, rfl, rfl⟩

/-- JavaScript's `Math.round` on the values at play here: round half toward
positive infinity, `⌊x + 1/2⌋`. -/
def jsRound (x : ℚ) : ℤ := ⌊x + 1 / 2⌋

/-- The percentage computed from an entered dollar amount `val` by the
allocation TextField handlers (`Dashboard.tsx` lines 271-284 and 285-303,
`Configuration.tsx` lines 842-855 and 856-874, all four identical):
`const portValue = portfolioSummary?.total_value || 1;`
`let percentage = Math.min(1.0, Math.max(0.01, val / portValue));`
`percentage = Math.round(percentage * 100) / 100;`. -/
def computedAllocationPercentage (totalValue : Option ℚ) (val : ℚ) : ℚ :=
  let portValue : ℚ :=
    match totalValue with
    | some v => if v = 0 then 1 else v
    | none => 1
  let percentage : ℚ := min 1 (max (1 / 100) (val / portValue))
  (jsRound (percentage * 100) : ℚ) / 100

/-- The `onChange` handler of the allocation amount TextField: stores the
entered amount, switches the allocation type to `FIXED_AMOUNT`, and stores
the computed percentage. -/
def allocationAmountOnChange (totalValue : Option ℚ) (val : ℚ)
    (cfg : BotConfig) : BotConfig :=
  { cfg with
    portfolio_allocation_type := .FIXED_AMOUNT,
    portfolio_allocation_amount := val,
    portfolio_allocation := computedAllocationPercentage totalValue val }

/-- `clamp` as the specification writes it: `clamp(x, lo, hi)` realized as
`min hi (max lo x)`, which is exactly the nested `Math.min`/`Math.max` of
the handlers. -/
def clamp (lo hi x : ℚ) : ℚ := min hi (max lo x)

/-- The allocation label next to the TextField
(`Dashboard.tsx` line 261, `Configuration.tsx` line 832):
`Math.round((config?.portfolio_allocation || 1.0) * 100)`. -/
def allocationLabelPercent (p : ℚ) : ℤ :=
  jsRound ((if p = 0 then 1 else p) * 100)

/-- The TextField value under `PERCENTAGE` allocation type
(`Dashboard.tsx` line 269, `Configuration.tsx` line 840):
`Math.round((portfolioSummary?.total_value || 0) * (config?.portfolio_allocation || 1.0))`,
at a non-null summary with total value `V` and a non-zero percentage `p`. -/
def displayedAllocationAmount (V p : ℚ) : ℚ := (jsRound (V * p) : ℚ)

/-- PERCENTAGE → FIXED_AMOUNT → PERCENTAGE round trip at a fixed total
value `V`: the dollar amount displayed for percentage `p` is entered back
into the amount field and converted to a percentage by the handler. -/
def allocationRoundTrip (V p : ℚ) : ℚ :=
  computedAllocationPercentage (some V) (displayedAllocationAmount V p)

/-- `Math.round` fixes integers. -/
theorem jsRound_intCast (n : ℤ) : jsRound (n : ℚ) = n := by
  rw [jsRound, add_comm, Int.floor_add_int,
    Int.floor_eq_zero_iff.mpr (Set.mem_Ico.mpr ⟨by norm_num, by norm_num⟩),
    zero_add]

/-- `Math.round` is monotone. -/
theorem jsRound_mono (x y : ℚ) (h : x ≤ y) : jsRound x ≤ jsRound y :=
  Int.floor_mono (add_le_add_right h _)

/-- `Math.round` moves its argument by at most 1/2. -/
theorem abs_jsRound_sub (x : ℚ) : |(jsRound x : ℚ) - x| ≤ 1 / 2 := by
  rw [abs_le]
  have h1 : (jsRound x : ℚ) ≤ x + 1 / 2 := Int.floor_le (x + 1 / 2)
  have h2 : x + 1 / 2 < (jsRound x : ℚ) + 1 := Int.lt_floor_add_one (x + 1 / 2)
  constructor <;> linarith

/-- Clamping to an interval containing `p` moves a point no further from
`p` than it already was. -/
theorem abs_clamp_sub_le (lo hi x p : ℚ) (h1 : lo ≤ p) (h2 : p ≤ hi) :
    |clamp lo hi x - p| ≤ |x - p| := by
  rw [clamp]
  rcases le_total x lo with hxlo | hlox
  · rw [max_eq_left hxlo, min_eq_right (le_trans h1 h2),
      abs_of_nonpos (by linarith), abs_of_nonpos (by linarith)]
    linarith
  · rw [max_eq_right hlox]
    rcases le_total x hi with hxhi | hhix
    · rw [min_eq_right hxhi]
    · rw [min_eq_left hhix, abs_of_nonneg (by linarith),
        abs_of_nonneg (by linarith)]
      linarith

/-- A sample configuration record for concrete witnesses. -/
def exampleBotConfig : BotConfig :=
  ⟨1, 10, 1/2, "MEDIUM", "09:30", "16:00", true, -5, 10, 5, 1, .PERCENTAGE, 0⟩

/-- C7: entering a dollar amount `A` while the summary shows total value
`V ≠ 0` stores allocation type `FIXED_AMOUNT`, the amount `A`, and the
percentage `clamp(A / V, 0.01, 1.00)` rounded to the nearest 1% (as the
two-decimal fraction `round(clamp(A/V, 0.01, 1) * 100) / 100`), and the
label next to the field displays exactly that rounded whole percentage. -/
theorem C7_fixed_amount_percentage_clamped (V A : ℚ) (cfg : BotConfig)
    (hV : V ≠ 0) :
    (allocationAmountOnChange (some V) A cfg).portfolio_allocation
      = (jsRound (clamp (1 / 100) 1 (A / V) * 100) : ℚ) / 100 ∧
    (allocationAmountOnChange (some V) A cfg).portfolio_allocation_amount = A ∧
    (allocationAmountOnChange (some V) A cfg).portfolio_allocation_type
      = .FIXED_AMOUNT ∧
    allocationLabelPercent
        ((allocationAmountOnChange (some V) A cfg).portfolio_allocation)
      = jsRound (clamp (1 / 100) 1 (A / V) * 100) := by
  have hstored : (allocationAmountOnChange (some V) A cfg).portfolio_allocation
      = (jsRound (clamp (1 / 100) 1 (A / V) * 100) : ℚ) / 100 := by
    show computedAllocationPercentage (some V) A = _
    rw [computedAllocationPercentage, clamp]
    rw [if_neg hV]
  refine ⟨hstored, rfl, rfl, ?_⟩
  set n : ℤ := jsRound (clamp (1 / 100) 1 (A / V) * 100) with hn
  have hclamp_lo : 1 / 100 ≤ clamp (1 / 100) 1 (A / V) :=
    le_min (by norm_num) (le_max_left _ _)
  have hone_le : (1 : ℚ) ≤ clamp (1 / 100) 1 (A / V) * 100 := by
    nlinarith [hclamp_lo]
  have hn_pos : 1 ≤ n := by
    have h1 : jsRound 1 ≤ n := jsRound_mono 1 _ hone_le
    have h2 : jsRound 1 = 1 := by
      have := jsRound_intCast 1
      simpa using this
    omega
  have hne : ((n : ℚ) / 100) ≠ 0 := by
    have : (0 : ℚ) < (n : ℚ) / 100 := by
      have : (1 : ℚ) ≤ (n : ℚ) := by exact_mod_cast hn_pos
      linarith
    exact ne_of_gt this
  rw [hstored, allocationLabelPercent, if_neg hne,
    div_mul_cancel₀ _ (by norm_num : (100 : ℚ) ≠ 0), jsRound_intCast]

/-- Witness for C7: with total value 200 and entered amount 50 the stored
percentage is 25% and the label shows 25. -/
theorem C7_fixed_amount_percentage_clamped_witness :
    (allocationAmountOnChange (some 200) 50 exampleBotConfig).portfolio_allocation
      = (jsRound (clamp (1 / 100) 1 ((50 : ℚ) / 200) * 100) : ℚ) / 100 ∧
    (allocationAmountOnChange (some 200) 50 exampleBotConfig).portfolio_allocation_amount
      = 50 ∧
    (allocationAmountOnChange (some 200) 50 exampleBotConfig).portfolio_allocation_type
      = .FIXED_AMOUNT ∧
    allocationLabelPercent
        ((allocationAmountOnChange (some 200) 50 exampleBotConfig).portfolio_allocation)
      = jsRound (clamp (1 / 100) 1 ((50 : ℚ) / 200) * 100) :=
  C7_fixed_amount_percentage_clamped 200 50 exampleBotConfig (by norm_num)

/-- A rational within distance 1 of the integer `k` rounds to `k - 1`,
`k` or `k + 1`. -/
theorem jsRound_near_int (k : ℤ) (x : ℚ) (h : |x - (k : ℚ)| ≤ 1) :
    k - 1 ≤ jsRound x ∧ jsRound x ≤ k + 1 := by
  have hb := abs_le.mp h
  constructor
  · rw [jsRound, Int.le_floor]
    push_cast
    linarith [hb.1]
  · rw [jsRound]
    have hlt : x + 1 / 2 < ((k + 2 : ℤ) : ℚ) := by push_cast; linarith [hb.2]
    have hfl := Int.floor_lt.mpr hlt
    omega

/-- Counterexample for C8 as stated: at total value 10 and percentage 5%,
the displayed dollar budget is `round(0.5) = 1`, and converting 1 dollar
back yields `1/10 = 10%` — an error of 5 percentage points, far outside
the claimed ±1% tolerance.  The ≤ $0.50 rounding error of the budget is
more than 1% of a small portfolio. -/
theorem C8_round_trip_counterexample :
    allocationRoundTrip 10 (5 / 100) = 10 / 100 ∧
    ¬ |allocationRoundTrip 10 (5 / 100) - 5 / 100| ≤ 1 / 100 := by
  have hA : displayedAllocationAmount 10 (5 / 100) = 1 := by
    rw [displayedAllocationAmount, jsRound]
    norm_num
  have h : allocationRoundTrip 10 (5 / 100) = 10 / 100 := by
    rw [allocationRoundTrip, hA, computedAllocationPercentage]
    norm_num [jsRound, min_def, max_def]
  refine ⟨h, ?_⟩
  have habs : |(10 : ℚ) / 100 - 5 / 100| = 1 / 20 := by
    rw [show (10 : ℚ) / 100 - 5 / 100 = 1 / 20 by norm_num,
      abs_of_pos (show (0 : ℚ) < 1 / 20 by norm_num)]
  rw [h, habs]
  norm_num

/-- C8 (amended): the ±1% round-trip tolerance holds once the portfolio is
large enough that the ≤ $0.50 budget-rounding error stays within 1% of it:
for every total value `V ≥ 50` and every whole percentage `p = k/100` with
`1 ≤ k ≤ 100` (the values the 1%-step slider produces and the handlers
store), converting `p` to the displayed dollar budget `round(p * V)` and
entering that amount back reproduces `p` within ±1%.  Below `V = 50` the
tolerance can be exceeded (see the counterexample). -/
theorem C8_allocation_round_trip_tolerance (V : ℚ) (k : ℤ) (hV : 50 ≤ V)
    (hk1 : 1 ≤ k) (hk2 : k ≤ 100) :
    |allocationRoundTrip V ((k : ℚ) / 100) - (k : ℚ) / 100| ≤ 1 / 100 := by
  have hVpos : (0 : ℚ) < V := by linarith
  have hVne : V ≠ 0 := ne_of_gt hVpos
  have hk1Q : (1 : ℚ) ≤ (k : ℚ) := by exact_mod_cast hk1
  have hk2Q : (k : ℚ) ≤ 100 := by exact_mod_cast hk2
  set p : ℚ := (k : ℚ) / 100 with hp
  have hp_lo : 1 / 100 ≤ p := by rw [hp]; linarith
  have hp_hi : p ≤ 1 := by rw [hp]; linarith
  set A : ℚ := displayedAllocationAmount V p with hA
  have hA1 : |A - V * p| ≤ 1 / 2 := by
    rw [hA, displayedAllocationAmount]
    exact abs_jsRound_sub (V * p)
  have hx : |A / V - p| ≤ 1 / 100 := by
    have hEq : A / V - p = (A - V * p) / V := by field_simp
    rw [hEq, abs_div, abs_of_pos hVpos, div_le_iff₀ hVpos]
    have hb := abs_le.mp hA1
    rw [abs_le]
    constructor <;> linarith
  have hrt : allocationRoundTrip V p
      = (jsRound (min 1 (max (1 / 100) (A / V)) * 100) : ℚ) / 100 := by
    show computedAllocationPercentage (some V) (displayedAllocationAmount V p) = _
    rw [← hA]
    show (jsRound (min 1 (max (1 / 100) (A / (if V = 0 then 1 else V))) * 100) : ℚ) / 100
      = _
    rw [if_neg hVne]
  have hc : |min 1 (max (1 / 100) (A / V)) - p| ≤ 1 / 100 := by
    have h1 := abs_clamp_sub_le (1 / 100) 1 (A / V) p hp_lo hp_hi
    rw [clamp] at h1
    exact le_trans h1 hx
  have hc100 : |min 1 (max (1 / 100) (A / V)) * 100 - (k : ℚ)| ≤ 1 := by
    have hEq : min 1 (max (1 / 100) (A / V)) * 100 - (k : ℚ)
        = 100 * (min 1 (max (1 / 100) (A / V)) - p) := by rw [hp]; ring
    rw [hEq, abs_mul, abs_of_pos (by norm_num : (0 : ℚ) < 100)]
    linarith [hc]
  obtain ⟨hn1, hn2⟩ := jsRound_near_int k _ hc100
  have hn1Q : (k : ℚ) - 1
      ≤ ((jsRound (min 1 (max (1 / 100) (A / V)) * 100) : ℤ) : ℚ) := by
    exact_mod_cast hn1
  have hn2Q : ((jsRound (min 1 (max (1 / 100) (A / V)) * 100) : ℤ) : ℚ)
      ≤ (k : ℚ) + 1 := by
    exact_mod_cast hn2
  rw [hrt, abs_le]
  constructor
  · rw [hp]
    linarith [hn1Q]
  · rw [hp]
    linarith [hn2Q]

/-- Witness for C8 (amended): at total value 100 and percentage 7% the
round trip is exact (budget $7 maps back to 7%), within the tolerance. -/
theorem C8_allocation_round_trip_tolerance_witness :
    (50 : ℚ) ≤ 100 ∧ (1 : ℤ) ≤ 7 ∧ (7 : ℤ) ≤ 100 ∧
    |allocationRoundTrip 100 (((7 : ℤ) : ℚ) / 100) - ((7 : ℤ) : ℚ) / 100|
      ≤ 1 / 100 :=
  ⟨by norm_num, by norm_num, by norm_num,
   C8_allocation_round_trip_tolerance 100 7 (by norm_num) (by norm_num)
     (by norm_num)⟩

end StockBot
